import Mathlib

/-!
# Object-storage root (`pkg/services/store/storage_s3.go`)

A shallow embedding of the S3 storage root of the file-storage service: the
constructor `newS3Storage`, which builds the root's descriptor and collects
its notices, and the method `rootStorageS3.Write`.

Conventions of the embedding:

* a Go pointer `*T` is an `Option T` (`none` is the nil pointer); reading a
  field through a pointer is a step in the `Option` monad, so that a nil
  dereference makes the whole function return `none`;
* a Go slice is a `List`, the nil slice being `[]` (the constructor only ever
  builds the slice with `append`, which never yields an empty non-nil slice);
* an `error` is an `Option String`, `none` being the nil error;
* a method with a pointer receiver returns the receiver's state after the call
  as the first component of its result.
-/

namespace Store

/-- Severity of a notice (`data.NoticeSeverity` of the plugin SDK). -/
inductive NoticeSeverity where
  | NoticeSeverityInfo
  | NoticeSeverityWarning
  | NoticeSeverityError
  deriving DecidableEq, Repr

/-- An advisory message attached to a storage root (`data.Notice`): the two
fields the constructor sets. -/
structure Notice where
  Severity : NoticeSeverity := NoticeSeverity.NoticeSeverityInfo
  Text : String := ""
  deriving DecidableEq, Repr

/-- Modelled from the spec: the declaration of `StorageS3Config` is not in the
source file. The settings of an object-storage root are its bucket name,
region, endpoint and credentials reference; the zero value has every field
empty. The constructor reads `Bucket` only. -/
structure StorageS3Config where
  Bucket : String := ""
  Region : String := ""
  Endpoint : String := ""
  Credentials : String := ""
  deriving DecidableEq, Repr

/-- How a storage root is mounted (`RootStorageConfig`): the fields the
constructor fills in. `S3` is a pointer to the settings. -/
structure RootStorageConfig where
  «Type» : String := ""
  Prefix : String := ""
  Name : String := ""
  S3 : Option StorageS3Config := none
  deriving DecidableEq, Repr

/-- The descriptor of a storage root (`RootStorageMeta`): its configuration
and the ordered notice sequence. -/
structure RootStorageMeta where
  Config : RootStorageConfig := {}
  Notice : List Notice := []
  deriving DecidableEq, Repr

/-- The shared runtime state embedded in every storage root: it holds the
descriptor, which the constructor assigns through `s.meta`. -/
structure baseStorageRuntime where
  meta : RootStorageMeta := {}
  deriving DecidableEq, Repr

/-- The S3 storage root: the embedded base runtime and a pointer to the
settings. -/
structure rootStorageS3 extends baseStorageRuntime where
  settings : Option StorageS3Config := none
  deriving DecidableEq, Repr

/-- Modelled from the spec: the declaration of `WriteValueRequest` is not in
the source file. A request carries the logical path and the value payload to
write. -/
structure WriteValueRequest where
  Path : String := ""
  Body : List Nat := []
  deriving DecidableEq, Repr

/-- The response of a write (`WriteValueResponse`): a numeric status code and
a message, the two fields `Write` sets. -/
structure WriteValueResponse where
  Code : Int := 0
  Message : String := ""
  deriving DecidableEq, Repr

/-- A `context.Context`, reduced to whether it has been cancelled. -/
structure Context where
  cancelled : Bool := false
  deriving DecidableEq, Repr

/-- The constant `rootStorageTypeS3`. -/
def rootStorageTypeS3 : String := "s3"

/-- The constructor `newS3Storage(prefix, name, cfg)`. A nil `cfg` is replaced
by a pointer to the zero settings; the descriptor is filled in; an empty prefix
and an empty bucket each append an error notice; when no notice was appended
the not-implemented notice is; the descriptor and the settings pointer are
stored in a fresh root. `cfg.Bucket` is read through the pointer. -/
def newS3Storage (pfx : String) (name : String) (cfg : Option StorageS3Config) :
    Option rootStorageS3 := do
  let cfg : Option StorageS3Config :=
    if cfg = none then some {} else cfg
  let meta : RootStorageMeta :=
    { Config :=
        { «Type» := rootStorageTypeS3
          Prefix := pfx
          Name := name
          S3 := cfg } }
  let meta : RootStorageMeta :=
    if pfx = "" then
      { meta with
        Notice := meta.Notice ++
          [{ Severity := NoticeSeverity.NoticeSeverityError
             Text := "Missing prefix" }] }
    else meta
  let pointee ← cfg
  let meta : RootStorageMeta :=
    if pointee.Bucket = "" then
      { meta with
        Notice := meta.Notice ++
          [{ Severity := NoticeSeverity.NoticeSeverityError
             Text := "Missing bucket configuration" }] }
    else meta
  let s : rootStorageS3 := {}
  let meta : RootStorageMeta :=
    if meta.Notice = [] then
      { meta with
        Notice := meta.Notice ++
          [{ Severity := NoticeSeverity.NoticeSeverityError
             Text := "not impemented yet..." }] }
    else meta
  let s : rootStorageS3 := { s with meta := meta }
  let s : rootStorageS3 := { s with settings := cfg }
  return s

/-- The method `(s *rootStorageS3) Write(ctx, cmd)`: the receiver after the
call, the response pointer and the error. The body is a single `return` of a
fresh response and the nil error. -/
def rootStorageS3.Write (s : rootStorageS3) (_ctx : Context)
    (_cmd : Option WriteValueRequest) :
    rootStorageS3 × Option WriteValueResponse × Option String :=
  (s, some { Code := 500, Message := "unsupportted operation (S3)" }, none)

/-! ## The four cases of the constructor -/

/-- The root built from a non-empty prefix and settings with a non-empty
bucket: the only notice is the not-implemented one. -/
theorem newS3Storage_eq_of_valid (pfx name : String) (c : StorageS3Config)
    (hp : pfx ≠ "") (hb : c.Bucket ≠ "") :
    newS3Storage pfx name (some c) =
      some { meta :=
               { Config := { «Type» := "s3", Prefix := pfx, Name := name,
                             S3 := some c },
                 Notice := [{ Severity := NoticeSeverity.NoticeSeverityError,
                              Text := "not impemented yet..." }] },
             settings := some c } := by
  simp [newS3Storage, rootStorageTypeS3, hp, hb]

/-- The root built from a non-empty prefix and settings with an empty bucket:
the only notice is the bucket one. -/
theorem newS3Storage_eq_of_no_bucket (pfx name : String) (c : StorageS3Config)
    (hp : pfx ≠ "") (hb : c.Bucket = "") :
    newS3Storage pfx name (some c) =
      some { meta :=
               { Config := { «Type» := "s3", Prefix := pfx, Name := name,
                             S3 := some c },
                 Notice := [{ Severity := NoticeSeverity.NoticeSeverityError,
                              Text := "Missing bucket configuration" }] },
             settings := some c } := by
  simp [newS3Storage, rootStorageTypeS3, hp, hb]

/-- The root built from the empty prefix and settings with a non-empty bucket:
the only notice is the prefix one. -/
theorem newS3Storage_eq_of_no_mount (name : String) (c : StorageS3Config)
    (hb : c.Bucket ≠ "") :
    newS3Storage "" name (some c) =
      some { meta :=
               { Config := { «Type» := "s3", Prefix := "", Name := name,
                             S3 := some c },
                 Notice := [{ Severity := NoticeSeverity.NoticeSeverityError,
                              Text := "Missing prefix" }] },
             settings := some c } := by
  simp [newS3Storage, rootStorageTypeS3, hb]

/-- The root built from the empty prefix and settings with an empty bucket:
the prefix notice, then the bucket notice. -/
theorem newS3Storage_eq_of_neither (name : String) (c : StorageS3Config)
    (hb : c.Bucket = "") :
    newS3Storage "" name (some c) =
      some { meta :=
               { Config := { «Type» := "s3", Prefix := "", Name := name,
                             S3 := some c },
                 Notice := [{ Severity := NoticeSeverity.NoticeSeverityError,
                              Text := "Missing prefix" },
                            { Severity := NoticeSeverity.NoticeSeverityError,
                              Text := "Missing bucket configuration" }] },
             settings := some c } := by
  simp [newS3Storage, rootStorageTypeS3, hb]

/-- A nil settings pointer is replaced by a pointer to the zero settings before
anything else is done. -/
theorem newS3Storage_nil_eq (pfx name : String) :
    newS3Storage pfx name none = newS3Storage pfx name (some {}) := by
  simp [newS3Storage]

/-- The constructor in closed form: it always returns a root; the settings it
stores, in `settings` and in `Config.S3`, are the pointee of `cfg`, or the zero
settings when `cfg` is nil; the notice sequence is the prefix notice if the
prefix is empty, then the bucket notice if the stored bucket is empty, then the
not-implemented notice if neither was appended. -/
theorem newS3Storage_closed_form (pfx name : String)
    (cfg : Option StorageS3Config) :
    ∃ s : rootStorageS3, newS3Storage pfx name cfg = some s ∧
      s.meta.Config = { «Type» := "s3", Prefix := pfx, Name := name,
                        S3 := some (cfg.getD {}) } ∧
      s.settings = some (cfg.getD {}) ∧
      s.meta.Notice =
        (if pfx = "" then
          [{ Severity := NoticeSeverity.NoticeSeverityError,
             Text := "Missing prefix" }] else []) ++
        (if (cfg.getD {}).Bucket = "" then
          [{ Severity := NoticeSeverity.NoticeSeverityError,
             Text := "Missing bucket configuration" }] else []) ++
        (if pfx ≠ "" ∧ (cfg.getD {}).Bucket ≠ "" then
          [{ Severity := NoticeSeverity.NoticeSeverityError,
             Text := "not impemented yet..." }] else []) := by
  rcases cfg with _ | c
  · rw [newS3Storage_nil_eq]
    by_cases hp : pfx = ""
    · subst hp
      exact ⟨_, newS3Storage_eq_of_neither name {} rfl, rfl, rfl, by simp⟩
    · exact ⟨_, newS3Storage_eq_of_no_bucket pfx name {} hp rfl, rfl, rfl,
        by simp [hp]⟩
  · by_cases hp : pfx = ""
    · subst hp
      by_cases hb : c.Bucket = ""
      · exact ⟨_, newS3Storage_eq_of_neither name c hb, rfl, rfl, by simp [hb]⟩
      · exact ⟨_, newS3Storage_eq_of_no_mount name c hb, rfl, rfl, by simp [hb]⟩
    · by_cases hb : c.Bucket = ""
      · exact ⟨_, newS3Storage_eq_of_no_bucket pfx name c hp hb, rfl, rfl,
          by simp [hp, hb]⟩
      · exact ⟨_, newS3Storage_eq_of_valid pfx name c hp hb, rfl, rfl,
          by simp [hp, hb]⟩

/-! ## The write method -/

/-- C1: evaluated on the root built from prefix "/data", name "My Bucket" and
settings with an empty bucket, with a nil request, `Write` returns the nil
error and a response of code 500 whose message is spelled
"unsupportted operation (S3)"; that response differs from the response of
code 500 and message "unsupported operation (S3)". -/
theorem Write_message_spelling :
    ∃ s : rootStorageS3,
      newS3Storage "/data" "My Bucket" (some { Bucket := "" }) = some s ∧
      (s.Write {} none).2 =
        (some { Code := 500, Message := "unsupportted operation (S3)" }, none) ∧
      (s.Write {} none).2 ≠
        (some { Code := 500, Message := "unsupported operation (S3)" }, none) := by
  refine ⟨_, rfl, rfl, ?_⟩
  decide

/-- C2: for every receiver, request (nil included) and context (cancelled or
not), `Write` returns the nil error together with a non-nil response whose
code is 500 and whose message is non-empty and contains "S3". -/
theorem Write_never_errors (s : rootStorageS3) (ctx : Context)
    (cmd : Option WriteValueRequest) :
    (s.Write ctx cmd).2.2 = none ∧
    ∃ resp : WriteValueResponse,
      (s.Write ctx cmd).2.1 = some resp ∧ resp.Code = 500 ∧ resp.Message ≠ "" ∧
      ∃ before after : String, resp.Message = before ++ "S3" ++ after := by
  refine ⟨rfl, _, rfl, rfl, by decide, "unsupportted operation (", ")", by decide⟩

/-! ## The notices collected by the constructor -/

/-- C3: for every name and every settings pointer (nil, empty bucket or
non-empty bucket), the constructor called with the empty prefix returns a root
whose notice sequence contains the error notice "Missing prefix". -/
theorem newS3Storage_missing_prefix_mem (name : String)
    (cfg : Option StorageS3Config) :
    ∃ s : rootStorageS3, newS3Storage "" name cfg = some s ∧
      ({ Severity := NoticeSeverity.NoticeSeverityError,
         Text := "Missing prefix" } : Notice) ∈ s.meta.Notice := by
  rcases cfg with _ | c
  · exact ⟨_, rfl, by simp⟩
  · by_cases hb : c.Bucket = "" <;> simp [newS3Storage, hb]

/-- C4: for every prefix and name, when the settings pointer is nil or points
to settings with an empty bucket, the constructor returns a root whose notice
sequence contains the error notice "Missing bucket configuration". -/
theorem newS3Storage_missing_bucket_mem (pfx name : String)
    (cfg : Option StorageS3Config)
    (h : cfg = none ∨ ∃ c : StorageS3Config, cfg = some c ∧ c.Bucket = "") :
    ∃ s : rootStorageS3, newS3Storage pfx name cfg = some s ∧
      ({ Severity := NoticeSeverity.NoticeSeverityError,
         Text := "Missing bucket configuration" } : Notice) ∈ s.meta.Notice := by
  rcases h with rfl | ⟨c, rfl, hb⟩
  · by_cases hp : pfx = "" <;> simp [newS3Storage, hp]
  · by_cases hp : pfx = "" <;> simp [newS3Storage, hp, hb]

/-- Witness of C4 at prefix "/data", name "My Bucket" and the nil settings
pointer. -/
theorem newS3Storage_missing_bucket_mem_witness :
    ∃ s : rootStorageS3, newS3Storage "/data" "My Bucket" none = some s ∧
      ({ Severity := NoticeSeverity.NoticeSeverityError,
         Text := "Missing bucket configuration" } : Notice) ∈ s.meta.Notice :=
  newS3Storage_missing_bucket_mem "/data" "My Bucket" none (Or.inl rfl)

/-- C5, as stated, fails: for prefix "/ok", name "name" and settings with
bucket "b1" the notice sequence is not a one-element list whose notice text is
"not implemented yet". -/
theorem newS3Storage_marker_text_counterexample :
    ¬ ∃ (s : rootStorageS3) (n : Notice),
        newS3Storage "/ok" "name" (some { Bucket := "b1" }) = some s ∧
        s.meta.Notice = [n] ∧ n.Text = "not implemented yet" := by
  rintro ⟨s, n, hs, hn, ht⟩
  have key : newS3Storage "/ok" "name" (some { Bucket := "b1" }) =
      some { meta :=
               { Config := { «Type» := "s3", Prefix := "/ok", Name := "name",
                             S3 := some { Bucket := "b1" } },
                 Notice := [{ Severity := NoticeSeverity.NoticeSeverityError,
                              Text := "not impemented yet..." }] },
             settings := some { Bucket := "b1" } } := by decide
  rw [key] at hs
  cases hs
  cases hn
  exact absurd ht (by decide)

/-- C5, amended: for every non-empty prefix, every name and every settings with
a non-empty bucket, the notice sequence is exactly a one-element list; its
notice has error severity and its text is the not-implemented marker, which
starts with "not im" and ends with "emented yet...". -/
theorem newS3Storage_valid_marker (pfx name : String) (c : StorageS3Config)
    (hp : pfx ≠ "") (hb : c.Bucket ≠ "") :
    ∃ (s : rootStorageS3) (n : Notice),
      newS3Storage pfx name (some c) = some s ∧ s.meta.Notice = [n] ∧
      n.Severity = NoticeSeverity.NoticeSeverityError ∧
      ∃ mid : String, n.Text = "not im" ++ mid ++ "emented yet..." := by
  exact ⟨_, _, newS3Storage_eq_of_valid pfx name c hp hb, rfl, rfl, "p",
    by decide⟩

/-- Witness of the amended C5 at prefix "/ok", name "name" and settings with
bucket "b1". -/
theorem newS3Storage_valid_marker_witness :
    ∃ (s : rootStorageS3) (n : Notice),
      newS3Storage "/ok" "name" (some { Bucket := "b1" }) = some s ∧
      s.meta.Notice = [n] ∧
      n.Severity = NoticeSeverity.NoticeSeverityError ∧
      ∃ mid : String, n.Text = "not im" ++ mid ++ "emented yet..." :=
  newS3Storage_valid_marker "/ok" "name" { Bucket := "b1" } (by decide) (by decide)

/-- C6: for every non-empty prefix, every name and every settings with a
non-empty bucket, the notice sequence has length exactly 1; its single notice
is the not-implemented marker (the error notice appended when no other notice
was), and it carries neither the text "Missing prefix" nor the text
"Missing bucket configuration". -/
theorem newS3Storage_valid_single_notice (pfx name : String)
    (c : StorageS3Config) (hp : pfx ≠ "") (hb : c.Bucket ≠ "") :
    ∃ (s : rootStorageS3) (n : Notice),
      newS3Storage pfx name (some c) = some s ∧
      s.meta.Notice.length = 1 ∧ s.meta.Notice = [n] ∧
      n = { Severity := NoticeSeverity.NoticeSeverityError,
            Text := "not impemented yet..." } ∧
      n.Text ≠ "Missing prefix" ∧ n.Text ≠ "Missing bucket configuration" := by
  exact ⟨_, _, newS3Storage_eq_of_valid pfx name c hp hb, rfl, rfl, rfl,
    by decide, by decide⟩

/-- Witness of C6 at prefix "/mnt", name "archive" and settings with bucket
"logs". -/
theorem newS3Storage_valid_single_notice_witness :
    ∃ (s : rootStorageS3) (n : Notice),
      newS3Storage "/mnt" "archive" (some { Bucket := "logs" }) = some s ∧
      s.meta.Notice.length = 1 ∧ s.meta.Notice = [n] ∧
      n = { Severity := NoticeSeverity.NoticeSeverityError,
            Text := "not impemented yet..." } ∧
      n.Text ≠ "Missing prefix" ∧ n.Text ≠ "Missing bucket configuration" :=
  newS3Storage_valid_single_notice "/mnt" "archive" { Bucket := "logs" }
    (by decide) (by decide)

/-- C7: for every non-empty prefix and every name, when the settings pointer
is nil or points to settings with an empty bucket, the notice sequence is
exactly the one error notice "Missing bucket configuration". -/
theorem newS3Storage_only_bucket_notice (pfx name : String)
    (cfg : Option StorageS3Config) (hp : pfx ≠ "")
    (h : cfg = none ∨ ∃ c : StorageS3Config, cfg = some c ∧ c.Bucket = "") :
    ∃ s : rootStorageS3, newS3Storage pfx name cfg = some s ∧
      s.meta.Notice =
        [{ Severity := NoticeSeverity.NoticeSeverityError,
           Text := "Missing bucket configuration" }] := by
  rcases h with rfl | ⟨c, rfl, hb⟩
  · rw [newS3Storage_nil_eq]
    exact ⟨_, newS3Storage_eq_of_no_bucket pfx name {} hp rfl, rfl⟩
  · exact ⟨_, newS3Storage_eq_of_no_bucket pfx name c hp hb, rfl⟩

/-- Witness of C7 at prefix "/data", name "My Bucket" and settings with an
empty bucket. -/
theorem newS3Storage_only_bucket_notice_witness :
    ∃ s : rootStorageS3,
      newS3Storage "/data" "My Bucket" (some { Bucket := "" }) = some s ∧
      s.meta.Notice =
        [{ Severity := NoticeSeverity.NoticeSeverityError,
           Text := "Missing bucket configuration" }] :=
  newS3Storage_only_bucket_notice "/data" "My Bucket" (some { Bucket := "" })
    (by decide) (Or.inr ⟨_, rfl, rfl⟩)

/-- C8: for every name and every settings with a non-empty bucket, the notice
sequence built for the empty prefix is exactly the one error notice
"Missing prefix". -/
theorem newS3Storage_only_mount_notice (name : String) (c : StorageS3Config)
    (hb : c.Bucket ≠ "") :
    ∃ s : rootStorageS3, newS3Storage "" name (some c) = some s ∧
      s.meta.Notice =
        [{ Severity := NoticeSeverity.NoticeSeverityError,
           Text := "Missing prefix" }] :=
  ⟨_, newS3Storage_eq_of_no_mount name c hb, rfl⟩

/-- Witness of C8 at the empty prefix, the empty name and settings with bucket
"b1". -/
theorem newS3Storage_only_mount_notice_witness :
    ∃ s : rootStorageS3, newS3Storage "" "" (some { Bucket := "b1" }) = some s ∧
      s.meta.Notice =
        [{ Severity := NoticeSeverity.NoticeSeverityError,
           Text := "Missing prefix" }] :=
  newS3Storage_only_mount_notice "" { Bucket := "b1" } (by decide)

/-- C9: for every name, when the prefix is empty and the settings pointer is
nil or points to settings with an empty bucket, the notice sequence is exactly
the error notice "Missing prefix" followed by the error notice
"Missing bucket configuration". -/
theorem newS3Storage_both_notices_in_order (name : String)
    (cfg : Option StorageS3Config)
    (h : cfg = none ∨ ∃ c : StorageS3Config, cfg = some c ∧ c.Bucket = "") :
    ∃ s : rootStorageS3, newS3Storage "" name cfg = some s ∧
      s.meta.Notice =
        [{ Severity := NoticeSeverity.NoticeSeverityError,
           Text := "Missing prefix" },
         { Severity := NoticeSeverity.NoticeSeverityError,
           Text := "Missing bucket configuration" }] := by
  rcases h with rfl | ⟨c, rfl, hb⟩
  · rw [newS3Storage_nil_eq]
    exact ⟨_, newS3Storage_eq_of_neither name {} rfl, rfl⟩
  · exact ⟨_, newS3Storage_eq_of_neither name c hb, rfl⟩

/-- Witness of C9 at name "root" and the nil settings pointer. -/
theorem newS3Storage_both_notices_in_order_witness :
    ∃ s : rootStorageS3, newS3Storage "" "root" none = some s ∧
      s.meta.Notice =
        [{ Severity := NoticeSeverity.NoticeSeverityError,
           Text := "Missing prefix" },
         { Severity := NoticeSeverity.NoticeSeverityError,
           Text := "Missing bucket configuration" }] :=
  newS3Storage_both_notices_in_order "root" none (Or.inl rfl)

/-! ## Construction is total -/

/-- C10: the constructor returns a root for every prefix, name and settings
pointer, with non-nil stored settings and non-nil `Config.S3`; called with the
nil pointer it returns the same root (descriptor and stored settings) as called
with a pointer to the zero settings, and that root stores the zero settings
both in `settings` and in `Config.S3`. -/
theorem newS3Storage_total_nil_as_empty (pfx name : String) :
    (∀ cfg : Option StorageS3Config, ∃ s : rootStorageS3,
        newS3Storage pfx name cfg = some s ∧
        s.settings ≠ none ∧ s.meta.Config.S3 ≠ none) ∧
    newS3Storage pfx name none = newS3Storage pfx name (some {}) ∧
    ∃ s : rootStorageS3, newS3Storage pfx name none = some s ∧
      newS3Storage pfx name (some {}) = some s ∧
      s.settings = some {} ∧ s.meta.Config.S3 = some {} := by
  refine ⟨?_, newS3Storage_nil_eq pfx name, ?_⟩
  · intro cfg
    rcases cfg with _ | c
    · by_cases hp : pfx = "" <;> simp [newS3Storage, hp]
    · by_cases hp : pfx = "" <;> by_cases hb : c.Bucket = "" <;>
        simp [newS3Storage, hp, hb]
  · rw [newS3Storage_nil_eq]
    by_cases hp : pfx = ""
    · subst hp
      exact ⟨_, newS3Storage_eq_of_neither name {} rfl,
        newS3Storage_eq_of_neither name {} rfl, rfl, rfl⟩
    · exact ⟨_, newS3Storage_eq_of_no_bucket pfx name {} hp rfl,
        newS3Storage_eq_of_no_bucket pfx name {} hp rfl, rfl, rfl⟩

/-! ## Invariants of the notice sequence -/

/-- C11: for every prefix, name and settings pointer (nil included), the
constructor returns a root whose notice sequence is non-empty and contains at
least one notice of error severity. -/
theorem newS3Storage_notice_nonempty (pfx name : String)
    (cfg : Option StorageS3Config) :
    ∃ s : rootStorageS3, newS3Storage pfx name cfg = some s ∧
      s.meta.Notice ≠ [] ∧
      ∃ n ∈ s.meta.Notice, n.Severity = NoticeSeverity.NoticeSeverityError := by
  obtain ⟨s, hs, _, _, hn⟩ := newS3Storage_closed_form pfx name cfg
  refine ⟨s, hs, ?_, ?_⟩
  · rw [hn]
    by_cases hp : pfx = "" <;> by_cases hb : (cfg.getD {}).Bucket = "" <;>
      simp [hp, hb]
  · rw [hn]
    by_cases hp : pfx = "" <;> by_cases hb : (cfg.getD {}).Bucket = "" <;>
      simp [hp, hb]

/-- C12: for every prefix, name and settings pointer, the notice sequence
contains the not-implemented notice (the error notice appended when no other
notice was) if and only if the prefix is non-empty and the settings have a
non-empty bucket, and if and only if no notice of the sequence has the text
"Missing prefix" or the text "Missing bucket configuration". -/
theorem newS3Storage_marker_iff (pfx name : String)
    (cfg : Option StorageS3Config) :
    ∃ s : rootStorageS3, newS3Storage pfx name cfg = some s ∧
      ((({ Severity := NoticeSeverity.NoticeSeverityError,
           Text := "not impemented yet..." } : Notice) ∈ s.meta.Notice) ↔
        (pfx ≠ "" ∧ ∃ c : StorageS3Config, cfg = some c ∧ c.Bucket ≠ "")) ∧
      ((({ Severity := NoticeSeverity.NoticeSeverityError,
           Text := "not impemented yet..." } : Notice) ∈ s.meta.Notice) ↔
        (∀ n ∈ s.meta.Notice,
          n.Text ≠ "Missing prefix" ∧
          n.Text ≠ "Missing bucket configuration")) := by
  obtain ⟨s, hs, _, _, hn⟩ := newS3Storage_closed_form pfx name cfg
  refine ⟨s, hs, ?_, ?_⟩
  · rw [hn]
    rcases cfg with _ | c
    · by_cases hp : pfx = "" <;> simp [hp]
    · by_cases hp : pfx = "" <;> by_cases hb : c.Bucket = "" <;>
        simp [hp, hb]
  · rw [hn]
    by_cases hp : pfx = "" <;> by_cases hb : (cfg.getD {}).Bucket = "" <;>
      simp [hp, hb]

/-- C16: for every prefix, name and settings pointer (nil included), every
notice of the returned root has error severity, the not-implemented notice
included, and the notice sequence has at most 2 entries. -/
theorem newS3Storage_notices_all_error (pfx name : String)
    (cfg : Option StorageS3Config) :
    ∃ s : rootStorageS3, newS3Storage pfx name cfg = some s ∧
      (∀ n ∈ s.meta.Notice, n.Severity = NoticeSeverity.NoticeSeverityError) ∧
      s.meta.Notice.length ≤ 2 := by
  obtain ⟨s, hs, _, _, hn⟩ := newS3Storage_closed_form pfx name cfg
  refine ⟨s, hs, ?_, ?_⟩
  · rw [hn]
    by_cases hp : pfx = "" <;> by_cases hb : (cfg.getD {}).Bucket = "" <;>
      simp [hp, hb]
  · rw [hn]
    by_cases hp : pfx = "" <;> by_cases hb : (cfg.getD {}).Bucket = "" <;>
      simp [hp, hb]

/-! ## Determinism and frame -/

/-- C13: two constructions from equal inputs both return a root, and the two
notice sequences are identical: same length, same severities and same texts in
the same order. -/
theorem newS3Storage_deterministic (pfx1 pfx2 name1 name2 : String)
    (cfg1 cfg2 : Option StorageS3Config)
    (hp : pfx1 = pfx2) (hname : name1 = name2) (hc : cfg1 = cfg2) :
    ∃ s1 s2 : rootStorageS3,
      newS3Storage pfx1 name1 cfg1 = some s1 ∧
      newS3Storage pfx2 name2 cfg2 = some s2 ∧
      s1.meta.Notice = s2.meta.Notice ∧
      s1.meta.Notice.length = s2.meta.Notice.length ∧
      s1.meta.Notice.map Notice.Severity = s2.meta.Notice.map Notice.Severity ∧
      s1.meta.Notice.map Notice.Text = s2.meta.Notice.map Notice.Text := by
  subst hp hname hc
  obtain ⟨s, hs, _⟩ := newS3Storage_closed_form pfx1 name1 cfg1
  exact ⟨s, s, hs, hs, rfl, rfl, rfl, rfl⟩

/-- Witness of C13 at prefix "/data", name "My Bucket" and settings with an
empty bucket, constructed twice. -/
theorem newS3Storage_deterministic_witness :
    ∃ s1 s2 : rootStorageS3,
      newS3Storage "/data" "My Bucket" (some { Bucket := "" }) = some s1 ∧
      newS3Storage "/data" "My Bucket" (some { Bucket := "" }) = some s2 ∧
      s1.meta.Notice = s2.meta.Notice ∧
      s1.meta.Notice.length = s2.meta.Notice.length ∧
      s1.meta.Notice.map Notice.Severity = s2.meta.Notice.map Notice.Severity ∧
      s1.meta.Notice.map Notice.Text = s2.meta.Notice.map Notice.Text :=
  newS3Storage_deterministic "/data" "/data" "My Bucket" "My Bucket"
    (some { Bucket := "" }) (some { Bucket := "" }) rfl rfl rfl

/-- C14: `Write` leaves the receiver as it was, so `meta` and `settings` are the
same after the call as before, and the response and error it returns are the
same for any two receivers, contexts and requests. -/
theorem Write_frame (s1 s2 : rootStorageS3) (ctx1 ctx2 : Context)
    (cmd1 cmd2 : Option WriteValueRequest) :
    (s1.Write ctx1 cmd1).1.meta = s1.meta ∧
    (s1.Write ctx1 cmd1).1.settings = s1.settings ∧
    (s1.Write ctx1 cmd1).1 = s1 ∧
    (s1.Write ctx1 cmd1).2 = (s2.Write ctx2 cmd2).2 ∧
    ((s1.Write ctx1 cmd1).1.Write ctx2 cmd2).2 = (s1.Write ctx1 cmd1).2 :=
  ⟨rfl, rfl, rfl, rfl, rfl⟩

/-- C15: for every prefix, name and non-nil settings pointer, the returned root
has `meta.Config.Type` equal to "s3", `meta.Config.Prefix` and
`meta.Config.Name` equal to the arguments, and both `meta.Config.S3` and
`settings` equal to the given settings, whatever the notices; an empty prefix
or bucket is stored as given. -/
theorem newS3Storage_carries_inputs (pfx name : String) (c : StorageS3Config) :
    ∃ s : rootStorageS3, newS3Storage pfx name (some c) = some s ∧
      s.meta.Config.«Type» = "s3" ∧
      s.meta.Config.Prefix = pfx ∧
      s.meta.Config.Name = name ∧
      s.meta.Config.S3 = some c ∧
      s.settings = some c ∧
      s.settings = s.meta.Config.S3 := by
  obtain ⟨s, hs, hcfg, hset, _⟩ := newS3Storage_closed_form pfx name (some c)
  refine ⟨s, hs, ?_, ?_, ?_, ?_, ?_, ?_⟩
  · rw [hcfg]
  · rw [hcfg]
  · rw [hcfg]
  · rw [hcfg]; rfl
  · rw [hset]; rfl
  · rw [hcfg, hset]

end Store
